import Mathlib

/-!
Shallow embedding of the virtual uinput controller layer
(`hhd/controller/virtual/uinput/__init__.py`, class `UInputDevice`) and
proofs about its `open`, `close`, `consume` and `produce` operations.

Python floats are modelled as exact rationals, Python ints as `Int`,
and device writes `dev.write(etype, ecode, value)` are recorded in a
list.  The wall clock read by `time.perf_counter_ns()` and the outcome
of the two evdev device constructors are passed in as parameters, since
they are the only external effects the translated code observes.
-/

/-! ### Device protocol constants (linux input event codes used by the code) -/

def EV_KEY : Nat := 1
def EV_ABS : Nat := 3
def EV_MSC : Nat := 4
def EV_FF : Nat := 21
def EV_UINPUT : Nat := 257
def MSC_TIMESTAMP : Nat := 5
def UI_FF_UPLOAD : Nat := 1
def UI_FF_ERASE : Nat := 2
def FF_RUMBLE : Nat := 80
def ABS_MT_POSITION_X : Nat := 53
def ABS_MT_POSITION_Y : Nat := 54
def ABS_MT_TRACKING_ID : Nat := 57
def BTN_TOOL_FINGER : Nat := 325

/-! ### Data model -/

/-- Axis mapping record `AX`: target axis code, scale, offset and optional
clamping bounds, as used by `consume` (`ax.id`, `ax.scale`, `ax.offset`,
`ax.bounds`). -/
structure AX where
  id : Nat
  scale : ℚ
  offset : ℚ
  bounds : Option (Int × Int)
deriving DecidableEq

/-- The `output_imu_timestamps` flag is `str | bool` in Python. -/
inductive ImuTs where
  | bool (b : Bool)
  | str (s : String)
deriving DecidableEq

/-- Python truthiness of the `output_imu_timestamps` value. -/
def ImuTs.truthy : ImuTs → Bool
  | .bool b => b
  | .str s => !(s == "")

/-- Abstract event crossing the translation boundary: a dict with
`type`, `code` and `value` keys in Python, with per-kind value types. -/
inductive Event where
  | axis (code : String) (value : ℚ)
  | button (code : String) (value : Bool)
  | config (code : String) (value : ℚ)
  | rumble (code : String)
deriving DecidableEq

/-- The string stored in the `type` field of the Python event dict. -/
def Event.kindStr : Event → String
  | .axis _ _ => "axis"
  | .button _ _ => "button"
  | .config _ _ => "configuration"
  | .rumble _ => "rumble"

/-- The `code` field of the event. -/
def Event.code : Event → String
  | .axis c _ => c
  | .button c _ => c
  | .config c _ => c
  | .rumble c => c

/-- Deduplication key used by `consume`: `(ev["type"], ev["code"])`. -/
def Event.key (e : Event) : String × String := (e.kindStr, e.code)

/-- One call `dev.write(etype, ecode, value)`. -/
structure DevWrite where
  etype : Nat
  ecode : Nat
  value : Int
deriving DecidableEq

/-- Outbound rumble event dict built by `produce` (its `type` is always
`rumble`); magnitudes are rationals in place of Python floats. -/
structure RumbleEv where
  code : String
  weak_magnitude : ℚ
  strong_magnitude : ℚ
deriving DecidableEq

/-- Payload fetched by `begin_upload`: effect type and the
`ff_rumble_effect` magnitude fields (16-bit unsigned in the kernel struct). -/
structure FFEffect where
  ftype : Nat
  weak_magnitude : Nat
  strong_magnitude : Nat
deriving DecidableEq

/-- One event read back from the device in `produce`; `effect` is the
upload payload the device would hand to `begin_upload` for
`EV_UINPUT`/`UI_FF_UPLOAD` events and is ignored otherwise. -/
structure InEv where
  etype : Nat
  ecode : Nat
  value : Int
  effect : Option FFEffect
deriving DecidableEq

/-- A Python instance attribute that may not have been assigned yet
(accessing an `unset` attribute raises `AttributeError`). -/
inductive PyAttr (α : Type) where
  | unset
  | val (a : α)
deriving DecidableEq

/-- The only Python exception our embedding distinguishes. -/
inductive PyErr where
  | attributeError
deriving DecidableEq

/-- An opened evdev device handle; the layer only reads its `fd`. -/
structure DevHandle where
  fd : Int
deriving DecidableEq

/-- Instance state of `UInputDevice`.  `touchpad_aspect` and `touch_id`
are assigned by `open` before `consume` can reach them (it returns early
while `dev` is `none`), so they are kept as plain fields. -/
structure State where
  axis_map : String → Option AX
  btn_map : String → Option Nat
  output_imu_timestamps : ImuTs
  output_timestamps : Bool
  ignore_cmds : Bool
  uniq : Option String
  dev : Option DevHandle
  fd : PyAttr (Option Int)
  touchpad_aspect : ℚ
  touch_id : Int
  rumble : Option RumbleEv

/-- State produced by `__init__`: no device, the `fd` attribute not yet
assigned, no pending rumble effect. -/
def initState (axis_map : String → Option AX) (btn_map : String → Option Nat)
    (imuts : ImuTs) (out_ts : Bool) (ign : Bool) (uniq : Option String) : State :=
  { axis_map := axis_map, btn_map := btn_map, output_imu_timestamps := imuts,
    output_timestamps := out_ts, ignore_cmds := ign, uniq := uniq,
    dev := none, fd := .unset, touchpad_aspect := 1, touch_id := 1, rumble := none }

/-- Python `int()` on a rational: truncation toward zero. -/
def pytrunc (q : ℚ) : Int := if 0 ≤ q then ⌊q⌋ else ⌈q⌉

/-- Python `(x // 1000) % (2**32)` for the integer wall clock value. -/
def wcMicro (wc : Int) : Int := Int.emod (Int.fdiv wc 1000) (2 ^ 32)

/-- Python `(v // 1000) % (2**32)` for an event value (floor division). -/
def nsToUs (v : ℚ) : Int := Int.emod ⌊v / 1000⌋ (2 ^ 32)

/-- Whether the event code matches `self.output_imu_timestamps` by string
equality (`ev["code"] == self.output_imu_timestamps`); a bool flag never
compares equal to a string. -/
def codeEqFlag : ImuTs → String → Bool
  | .str s, code => decide (code = s)
  | .bool _, _ => false

/-- The unmapped-axis sensor-timestamp condition of `consume`:
`(flag is True and code in (accel_ts, gyro_ts, imu_ts)) or code == flag`. -/
def imuMatch (st : State) (code : String) : Bool :=
  (decide (st.output_imu_timestamps = ImuTs.bool true)
      && (decide (code = "accel_ts") || decide (code = "gyro_ts")
            || decide (code = "imu_ts")))
    || codeEqFlag st.output_imu_timestamps code

/-! ### consume -/

/-- Loop accumulator of `consume`: the keys of the `wrote` dict (only
membership and emptiness of `wrote` are ever read), the `ts` local, the
live instance fields mutated inside the loop, and the writes issued
so far, in issue order. -/
structure CAcc where
  wroteKeys : List (String × String)
  ts : Int
  aspect : ℚ
  touch_id : Int
  writes : List DevWrite

/-- Per-kind dispatch of the loop body of `consume` (the `match
ev["type"]` statement), for an event that was not skipped. -/
def stepRaw (st : State) (acc : CAcc) : Event → CAcc
  | .axis code v =>
      match st.axis_map code with
      | some ax =>
        let t : ℚ := ax.scale * v + ax.offset
        let t : ℚ := if code = "touchpad_x" then acc.aspect * t else t
        let val : Int :=
          match ax.bounds with
          | some b => min (max (pytrunc t) b.1) b.2
          | none => pytrunc t
        let ws := acc.writes ++ [⟨EV_ABS, ax.id, val⟩]
        let ws :=
          if code = "touchpad_x" then ws ++ [⟨EV_ABS, ABS_MT_POSITION_X, val⟩]
          else if code = "touchpad_y" then ws ++ [⟨EV_ABS, ABS_MT_POSITION_Y, val⟩]
          else ws
        { acc with writes := ws, wroteKeys := acc.wroteKeys ++ [("axis", code)] }
      | none =>
        if imuMatch st code then
          { acc with
            ts := nsToUs v,
            writes := acc.writes ++ [⟨EV_MSC, MSC_TIMESTAMP, nsToUs v⟩],
            wroteKeys := acc.wroteKeys ++ [("axis", code)] }
        else acc
  | .button code b =>
      match st.btn_map code with
      | some bid =>
        if code = "touchpad_touch" then
          let tid := acc.touch_id + 1
          let tid := if tid > 500 then 1 else tid
          { acc with
            touch_id := tid,
            writes := acc.writes ++
              [⟨EV_ABS, ABS_MT_TRACKING_ID, if b then acc.touch_id else -1⟩,
               ⟨EV_KEY, BTN_TOOL_FINGER, if b then 1 else 0⟩,
               ⟨EV_KEY, bid, if b then 1 else 0⟩],
            wroteKeys := acc.wroteKeys ++ [("button", code)] }
        else
          { acc with
            writes := acc.writes ++ [⟨EV_KEY, bid, if b then 1 else 0⟩],
            wroteKeys := acc.wroteKeys ++ [("button", code)] }
      | none => acc
  | .config code v =>
      if code = "touchpad_aspect_ratio" then { acc with aspect := v } else acc
  | .rumble _ => acc

/-- Body of the `for ev in reversed(events)` loop of `consume`: skip an
event whose `(type, code)` key is in the `wrote` dict, else dispatch on
the kind. -/
def step (st : State) (acc : CAcc) (e : Event) : CAcc :=
  if e.key ∈ acc.wroteKeys then acc else stepRaw st acc e

/-- The whole loop: `reversed(events)` iterates last-to-first, which is
`List.foldr` of `step` over the batch. -/
def runLoop (st : State) (evs : List Event) : CAcc :=
  evs.foldr (fun e acc => step st acc e) ⟨[], 0, st.touchpad_aspect, st.touch_id, []⟩

/-- Result of one `consume` call: updated instance state, the device
writes in order, and whether `dev.syn()` was called. -/
structure ConsumeOut where
  state : State
  writes : List DevWrite
  synced : Bool

/-- `consume(events)`, with the wall clock value `wc` that
`time.perf_counter_ns()` would return passed explicitly. -/
def consume (st : State) (wc : Int) (evs : List Event) : ConsumeOut :=
  match st.dev with
  | none => ⟨st, [], false⟩
  | some _ =>
    let acc := runLoop st evs
    let wroteAny := !acc.wroteKeys.isEmpty
    let p : List DevWrite × Int :=
      if wroteAny && st.output_timestamps then
        (acc.writes ++ [⟨EV_MSC, MSC_TIMESTAMP, wcMicro wc⟩], wcMicro wc)
      else (acc.writes, acc.ts)
    let synced := wroteAny && (!st.output_imu_timestamps.truthy || !(p.2 == 0))
    ⟨{ st with touchpad_aspect := acc.aspect, touch_id := acc.touch_id },
      p.1, synced⟩

/-! ### open and close -/

/-- `open()`, with the outcomes of the two device constructors passed as
parameters: `primary` models `UInputMonkey(..., uniq=self.uniq)` (the
only path receiving the unique id) and `fallback` models the plain
`UInput(...)` call, which takes no unique id.  Returns the new state,
the descriptor list or the propagated construction error, and the
number of error log lines emitted. -/
def openDev (st : State) (primary : Option String → Except String DevHandle)
    (fallback : Except String DevHandle) :
    State × Except String (List Int) × Nat :=
  match primary st.uniq with
  | .ok d =>
    ({ st with dev := some d, fd := .val (some d.fd),
               touchpad_aspect := 1, touch_id := 1 },
      .ok (if st.ignore_cmds then [] else [d.fd]), 0)
  | .error _ =>
    match fallback with
    | .ok d =>
      ({ st with dev := some d, fd := .val (some d.fd),
                 touchpad_aspect := 1, touch_id := 1 },
        .ok (if st.ignore_cmds then [] else [d.fd]), 1)
    | .error e => (st, .error e, 1)

/-- `close(exit)`: drop the handle, null the cached descriptor, return
`True`.  The `exit` flag is unused by the body.  The Python body also
nulls an otherwise unused `input` attribute, which carries no behavior
and is not modelled. -/
def close (st : State) : State × Bool :=
  ({ st with dev := none, fd := .val none }, true)

/-! ### produce -/

/-- Python truthiness of `self.fd` (an int descriptor or `None`). -/
def fdTruthy : Option Int → Bool
  | none => false
  | some n => !(n == 0)

/-- Python `self.fd in fds` (only reached when the descriptor is truthy). -/
def fdMem : Option Int → List Int → Bool
  | none, _ => false
  | some n, fds => decide (n ∈ fds)

/-- Accumulator of the `produce` drain loop: the pending rumble effect,
the events appended to `out`, and counts of warning and info log lines. -/
structure PAcc where
  rumble : Option RumbleEv
  out : List RumbleEv
  warns : Nat
  infos : Nat

/-- Body of the drain loop of `produce`, processing one device event. -/
def produceStep (acc : PAcc) (ev : InEv) : PAcc :=
  if ev.etype = EV_MSC ∧ ev.ecode = MSC_TIMESTAMP then acc
  else if ev.etype = EV_UINPUT then
    if ev.ecode = UI_FF_UPLOAD then
      match ev.effect with
      | some eff =>
        if eff.ftype = FF_RUMBLE then
          let r : RumbleEv :=
            ⟨"main", (eff.weak_magnitude : ℚ) / 65535,
             (eff.strong_magnitude : ℚ) / 65535⟩
          { acc with rumble := some r }
        else acc
      | none => acc
    else acc
  else if ev.etype = EV_FF ∧ ev.value ≠ 0 then
    match acc.rumble with
    | some r => { acc with out := acc.out ++ [r] }
    | none => { acc with warns := acc.warns + 1 }
  else if ev.etype = EV_FF ∧ ev.value = 0 then
    { acc with out := acc.out ++ [⟨"main", 0, 0⟩] }
  else { acc with infos := acc.infos + 1 }

/-- Continuation of `produce` past the `ignore_cmds` test, reading the
`fd` attribute: unset raises `AttributeError`; a falsy, absent or
closed descriptor returns empty; otherwise the buffered device events
are drained. -/
def produceFd (st : State) (fds : List Int) (ins : List InEv) :
    PyAttr (Option Int) → Except PyErr (State × List RumbleEv × Nat)
  | .unset => .error .attributeError
  | .val fdo =>
    if !fdTruthy fdo || !fdMem fdo fds || st.dev.isNone then .ok (st, [], 0)
    else
      let acc := ins.foldl produceStep ⟨st.rumble, [], 0, 0⟩
      .ok ({ st with rumble := acc.rumble }, acc.out, acc.warns)

/-- `produce(fds)`, with the sequence of device events that the
`while can_read: for ev in self.dev.read()` drain would yield passed as
`ins`.  The `ignore_cmds` test short-circuits before the `fd`
attribute access.  Returns the new state, the emitted events, and the
number of warning log lines. -/
def produce (st : State) (fds : List Int) (ins : List InEv) :
    Except PyErr (State × List RumbleEv × Nat) :=
  if st.ignore_cmds then .ok (st, [], 0)
  else produceFd st fds ins st.fd

/-! ### Derived helper functions used only in theorem statements -/

/-- The rumble effect a device event stores when it is a rumble-style
force-feedback upload, if any. -/
def rumbleOf (ev : InEv) : Option RumbleEv :=
  if ev.etype = EV_UINPUT ∧ ev.ecode = UI_FF_UPLOAD then
    match ev.effect with
    | some eff =>
      if eff.ftype = FF_RUMBLE then
        some ⟨"main", (eff.weak_magnitude : ℚ) / 65535,
              (eff.strong_magnitude : ℚ) / 65535⟩
      else none
    | none => none
  else none

/-- The pending effect left after a stream of device events: the last
rumble-style upload wins, otherwise the initial effect is kept. -/
def uploadsApplied (r : Option RumbleEv) (ins : List InEv) : Option RumbleEv :=
  ins.foldl (fun r ev => match rumbleOf ev with | some x => some x | none => r) r

/-- The values of the `touchpad_aspect_ratio` configuration events of a
batch, in batch order. -/
def aspectValues (evs : List Event) : List ℚ :=
  evs.filterMap fun e =>
    match e with
    | .config c v => if c = "touchpad_aspect_ratio" then some v else none
    | _ => none

/-- Whether processing an event with this deduplication key records the
key in the `wrote` dict (equivalently, issues device writes).  This
depends only on the key and the immutable configuration. -/
def writableKey (st : State) (k : String × String) : Bool :=
  if k.1 = "axis" then (st.axis_map k.2).isSome || imuMatch st k.2
  else if k.1 = "button" then (st.btn_map k.2).isSome
  else false

/-! ### Concrete states used by witnesses and counterexamples -/

/-- Empty axis map. -/
def emptyAx : String → Option AX := fun _ => none

/-- Empty button map. -/
def emptyBtn : String → Option Nat := fun _ => none

/-- An opened device with default configuration and empty maps. -/
def baseState : State :=
  { axis_map := emptyAx, btn_map := emptyBtn,
    output_imu_timestamps := .bool false, output_timestamps := false,
    ignore_cmds := false, uniq := none, dev := some ⟨3⟩, fd := .val (some 3),
    touchpad_aspect := 1, touch_id := 1, rumble := none }

/-- Open device mapping only the horizontal touch axis, with a stored
aspect of two. -/
def stX : State :=
  { baseState with
    axis_map := fun c =>
      if c = "touchpad_x" then some ⟨7, 3 / 2, 5, some (-7, 20)⟩ else none,
    touchpad_aspect := 2 }

/-- Open device mapping only the vertical touch axis, with a stored
aspect of two. -/
def stY : State :=
  { baseState with
    axis_map := fun c => if c = "touchpad_y" then some ⟨1, 1, 0, none⟩ else none,
    touchpad_aspect := 2 }

/-- Open device mapping only the reserved touch button. -/
def stT : State :=
  { baseState with
    btn_map := fun c => if c = "touchpad_touch" then some 272 else none }

/-- Open device with one plain axis and both timestamp outputs enabled. -/
def stS : State :=
  { baseState with
    axis_map := fun c => if c = "x1" then some ⟨0, 1, 0, none⟩ else none,
    output_imu_timestamps := .bool true, output_timestamps := true }

/-- Open device with sensor-timestamp output enabled. -/
def stG : State := { baseState with output_imu_timestamps := .bool true }

/-- Open device mapping one plain button. -/
def stB : State :=
  { baseState with btn_map := fun c => if c = "a" then some 30 else none }

/-! ### Lemmas about the consume loop -/

/-- An event whose key was already written is skipped. -/
theorem step_skip (st : State) (acc : CAcc) (e : Event)
    (h : e.key ∈ acc.wroteKeys) : step st acc e = acc := by
  unfold step
  simp [h]

/-- Processing an event never removes keys from the `wrote` dict. -/
theorem step_wrote_mono (st : State) (acc : CAcc) (e : Event)
    (k : String × String) (h : k ∈ acc.wroteKeys) :
    k ∈ (step st acc e).wroteKeys := by
  unfold step
  split
  · exact h
  · cases e with
    | axis code v =>
      simp only [stepRaw]
      split
      · simp [List.mem_append, h]
      · split
        · simp [List.mem_append, h]
        · exact h
    | button code b =>
      simp only [stepRaw]
      split
      · split <;> simp [List.mem_append, h]
      · exact h
    | config code v =>
      simp only [stepRaw]
      split <;> simp [h]
    | rumble code => exact h

/-- A write-producing event records its key in the `wrote` dict. -/
theorem step_writable_mem (st : State) (acc : CAcc) (e : Event)
    (h : writableKey st e.key = true) : e.key ∈ (step st acc e).wroteKeys := by
  by_cases hm : e.key ∈ acc.wroteKeys
  · rw [step_skip st acc e hm]
    exact hm
  · unfold step
    rw [if_neg hm]
    cases e with
    | axis code v =>
      unfold writableKey at h
      simp only [Event.key, Event.kindStr, Event.code, reduceIte,
        Bool.or_eq_true] at h
      simp only [stepRaw]
      cases hax : st.axis_map code with
      | some ax => simp [Event.key, Event.kindStr, Event.code]
      | none =>
        rw [hax] at h
        simp only [Option.isSome_none, Bool.false_eq_true, false_or] at h
        simp [h, Event.key, Event.kindStr, Event.code]
    | button code b =>
      unfold writableKey at h
      simp only [Event.key, Event.kindStr, Event.code, reduceIte,
        String.reduceEq] at h
      simp only [stepRaw]
      cases hbt : st.btn_map code with
      | some bid =>
        split
        · split <;> simp [List.mem_append, Event.key, Event.kindStr, Event.code]
        · simp_all
      | none =>
        rw [hbt] at h
        simp at h
    | config code v =>
      unfold writableKey at h
      simp only [Event.key, Event.kindStr, Event.code, String.reduceEq,
        reduceIte] at h
      simp at h
    | rumble code =>
      unfold writableKey at h
      simp only [Event.key, Event.kindStr, Event.code, String.reduceEq,
        reduceIte] at h
      simp at h

/-- An event of a non-configuration kind whose key produces no writes
leaves the accumulator unchanged. -/
theorem step_inert (st : State) (acc : CAcc) (e : Event)
    (hw : writableKey st e.key = false) (hc : e.kindStr ≠ "configuration") :
    step st acc e = acc := by
  by_cases hm : e.key ∈ acc.wroteKeys
  · exact step_skip st acc e hm
  · unfold step
    rw [if_neg hm]
    cases e with
    | axis code v =>
      unfold writableKey at hw
      simp only [Event.key, Event.kindStr, Event.code, reduceIte,
        Bool.or_eq_false_iff] at hw
      obtain ⟨h1, h2⟩ := hw
      have hax : st.axis_map code = none := by
        cases hax : st.axis_map code with
        | some ax => rw [hax] at h1; simp at h1
        | none => rfl
      simp only [stepRaw]
      rw [hax]
      simp only [h2]
      simp
    | button code b =>
      unfold writableKey at hw
      simp only [Event.key, Event.kindStr, Event.code, reduceIte,
        String.reduceEq] at hw
      have hbt : st.btn_map code = none := by
        cases hbt : st.btn_map code with
        | some bid => rw [hbt] at hw; simp at hw
        | none => rfl
      simp only [stepRaw]
      rw [hbt]
    | config code v => exact absurd rfl hc
    | rumble code => simp only [stepRaw]

/-- The consume loop run from an arbitrary accumulator. -/
def foldSteps (st : State) (acc : CAcc) (l : List Event) : CAcc :=
  l.foldr (fun e a => step st a e) acc

/-- `runLoop` is `foldSteps` from the initial accumulator. -/
theorem runLoop_eq_foldSteps (st : State) (evs : List Event) :
    runLoop st evs = foldSteps st ⟨[], 0, st.touchpad_aspect, st.touch_id, []⟩ evs := rfl

/-- The loop never removes keys from the `wrote` dict. -/
theorem foldSteps_wrote_mono (st : State) (l : List Event) (acc : CAcc)
    (k : String × String) (h : k ∈ acc.wroteKeys) :
    k ∈ (foldSteps st acc l).wroteKeys := by
  induction l with
  | nil => exact h
  | cons e rest ih => exact step_wrote_mono st _ e k ih

/-- After the loop, the key of any write-producing event of the list is
in the `wrote` dict. -/
theorem foldSteps_writable_mem (st : State) (l : List Event) (acc : CAcc)
    (e : Event) (he : e ∈ l) (hw : writableKey st e.key = true) :
    e.key ∈ (foldSteps st acc l).wroteKeys := by
  induction l with
  | nil => cases he
  | cons r rs ih =>
    rcases List.mem_cons.mp he with h | h
    · subst h
      exact step_writable_mem st _ e hw
    · exact step_wrote_mono st _ r _ (ih h)

/-- Dropping an event that has a later same-key occurrence (of a
non-configuration kind) does not change the loop result. -/
theorem foldSteps_dedup (st : State) (acc : CAcc) (e₁ : Event)
    (rest : List Event) (e₂ : Event) (h2 : e₂ ∈ rest) (hk : e₁.key = e₂.key)
    (hc : e₁.kindStr ≠ "configuration") :
    foldSteps st acc (e₁ :: rest) = foldSteps st acc rest := by
  show step st (foldSteps st acc rest) e₁ = foldSteps st acc rest
  rcases Bool.eq_false_or_eq_true (writableKey st e₁.key) with hw | hw
  · apply step_skip
    rw [hk]
    exact foldSteps_writable_mem st rest acc e₂ h2 (by rw [← hk]; exact hw)
  · exact step_inert st _ e₁ hw hc

/-- List of appends: emptiness of an append. -/
theorem isEmpty_append_eq {α : Type} (l m : List α) :
    (l ++ m).isEmpty = (l.isEmpty && m.isEmpty) := by
  cases l <;> simp [List.isEmpty]

/-- Every loop step adds a key to the `wrote` dict exactly when it adds
at least one device write, so emptiness of the two lists stays equal. -/
theorem step_empt (st : State) (acc : CAcc) (e : Event)
    (h : acc.wroteKeys.isEmpty = acc.writes.isEmpty) :
    (step st acc e).wroteKeys.isEmpty = (step st acc e).writes.isEmpty := by
  unfold step stepRaw
  repeat' split
  all_goals simp_all [isEmpty_append_eq]

/-- Emptiness of keys and writes agree after the whole loop. -/
theorem foldSteps_empt (st : State) (l : List Event) (acc : CAcc)
    (h : acc.wroteKeys.isEmpty = acc.writes.isEmpty) :
    (foldSteps st acc l).wroteKeys.isEmpty = (foldSteps st acc l).writes.isEmpty := by
  induction l with
  | nil => exact h
  | cons e rest ih => exact step_empt st _ e ih

/-- Emptiness of keys and writes agree for `runLoop`. -/
theorem runLoop_empt (st : State) (evs : List Event) :
    (runLoop st evs).wroteKeys.isEmpty = (runLoop st evs).writes.isEmpty :=
  foldSteps_empt st evs _ rfl

/-- The `wrote` dict only ever holds axis and button keys, so no
configuration key is ever recorded in it. -/
theorem step_keys_noconfig (st : State) (acc : CAcc) (e : Event)
    (h : ∀ k ∈ acc.wroteKeys, k.1 ≠ "configuration") :
    ∀ k ∈ (step st acc e).wroteKeys, k.1 ≠ "configuration" := by
  unfold step stepRaw
  repeat' split
  all_goals intro k hk
  all_goals first
    | exact h k hk
    | (rcases List.mem_append.mp hk with hk | hk
       · exact h k hk
       · simp only [List.mem_singleton] at hk
         subst hk
         simp)

/-- No configuration key is recorded across the whole loop. -/
theorem foldSteps_keys_noconfig (st : State) (l : List Event) (acc : CAcc)
    (h : ∀ k ∈ acc.wroteKeys, k.1 ≠ "configuration") :
    ∀ k ∈ (foldSteps st acc l).wroteKeys, k.1 ≠ "configuration" := by
  induction l with
  | nil => exact h
  | cons e rest ih => exact step_keys_noconfig st _ e ih

/-- Processing an aspect-ratio configuration event stores its value,
provided no configuration key sits in the `wrote` dict. -/
theorem step_aspect_config (st : State) (acc : CAcc) (v : ℚ)
    (h : ∀ k ∈ acc.wroteKeys, k.1 ≠ "configuration") :
    (step st acc (Event.config "touchpad_aspect_ratio" v)).aspect = v := by
  have hm : (Event.config "touchpad_aspect_ratio" v).key ∉ acc.wroteKeys := by
    intro hmem
    exact h _ hmem rfl
  unfold step
  rw [if_neg hm]
  simp [stepRaw]

/-- Any event other than an aspect-ratio configuration event leaves the
stored aspect unchanged. -/
theorem step_aspect_preserve (st : State) (acc : CAcc) (e : Event)
    (he : e.kindStr ≠ "configuration" ∨ e.code ≠ "touchpad_aspect_ratio") :
    (step st acc e).aspect = acc.aspect := by
  unfold step
  split
  · rfl
  · cases e with
    | axis code v =>
      simp only [stepRaw]
      repeat' split
      all_goals rfl
    | button code b =>
      simp only [stepRaw]
      repeat' split
      all_goals rfl
    | config code v =>
      rcases he with he | he
      · exact absurd rfl he
      · simp only [stepRaw]
        rw [if_neg (by simpa [Event.code] using he)]
    | rumble code => rfl

/-- After the loop, the stored aspect is the value of the first
aspect-ratio configuration event of the batch, if any. -/
theorem foldSteps_aspect (st : State) (l : List Event) (acc : CAcc)
    (h : ∀ k ∈ acc.wroteKeys, k.1 ≠ "configuration") :
    (foldSteps st acc l).aspect = (aspectValues l).headD acc.aspect := by
  induction l with
  | nil => rfl
  | cons e rest ih =>
    show (step st (foldSteps st acc rest) e).aspect = _
    cases e with
    | axis code v =>
      rw [step_aspect_preserve st _ _ (Or.inl (by simp [Event.kindStr])), ih]
      simp [aspectValues, List.filterMap_cons]
    | button code b =>
      rw [step_aspect_preserve st _ _ (Or.inl (by simp [Event.kindStr])), ih]
      simp [aspectValues, List.filterMap_cons]
    | rumble code =>
      rw [step_aspect_preserve st _ _ (Or.inl (by simp [Event.kindStr])), ih]
      simp [aspectValues, List.filterMap_cons]
    | config code v =>
      by_cases har : code = "touchpad_aspect_ratio"
      · subst har
        rw [step_aspect_config st _ v (foldSteps_keys_noconfig st rest acc h)]
        simp [aspectValues, List.filterMap_cons]
      · rw [step_aspect_preserve st _ _ (Or.inr (by simpa [Event.code] using har)), ih]
        simp [aspectValues, List.filterMap_cons, har]

/-- The aspect after `runLoop` is the first aspect configuration value
of the batch, defaulting to the stored one. -/
theorem runLoop_aspect (st : State) (evs : List Event) :
    (runLoop st evs).aspect = (aspectValues evs).headD st.touchpad_aspect := by
  rw [runLoop_eq_foldSteps]
  exact foldSteps_aspect st evs _ (by intro k hk; cases hk)

/-- The pending effect after one drain-loop step is the event's rumble
upload when it is one, else unchanged. -/
theorem produceStep_rumble (acc : PAcc) (ev : InEv) :
    (produceStep acc ev).rumble =
      (match rumbleOf ev with | some x => some x | none => acc.rumble) := by
  unfold produceStep rumbleOf
  repeat' split
  all_goals simp_all [EV_MSC, MSC_TIMESTAMP, EV_UINPUT, UI_FF_UPLOAD,
    UI_FF_ERASE, EV_FF, FF_RUMBLE]

/-- The pending effect after the whole drain loop is the last rumble
upload of the stream, defaulting to the initial one. -/
theorem foldl_produce_rumble (ins : List InEv) (acc : PAcc) :
    (ins.foldl produceStep acc).rumble = uploadsApplied acc.rumble ins := by
  induction ins generalizing acc with
  | nil => rfl
  | cons e rest ih =>
    show ((rest.foldl produceStep (produceStep acc e))).rumble = _
    rw [ih, produceStep_rumble acc e]
    rfl

/-! ### C1: axis transform -/

/-- The value `consume` writes for a mapped axis event: scale and
offset, the aspect multiply for the horizontal touch axis only, `int()`
truncation, then clamping when bounds are present. -/
def axisTransform (st : State) (ax : AX) (code : String) (v : ℚ) : Int :=
  let t : ℚ := ax.scale * v + ax.offset
  let t : ℚ := if code = "touchpad_x" then st.touchpad_aspect * t else t
  match ax.bounds with
  | some b => min (max (pytrunc t) b.1) b.2
  | none => pytrunc t

/-- The axis-category writes a mapped axis event produces: the mapped
axis write, mirrored onto the matching synthetic multi-touch position
axis for the two touch axes. -/
def axisWrites (st : State) (ax : AX) (code : String) (v : ℚ) : List DevWrite :=
  let val := axisTransform st ax code v
  ⟨EV_ABS, ax.id, val⟩ ::
    (if code = "touchpad_x" then [⟨EV_ABS, ABS_MT_POSITION_X, val⟩]
     else if code = "touchpad_y" then [⟨EV_ABS, ABS_MT_POSITION_Y, val⟩]
     else [])

/-- `axisWrites` only holds axis-category writes. -/
theorem axisWrites_filter (st : State) (ax : AX) (code : String) (v : ℚ) :
    (axisWrites st ax code v).filter (fun w => w.etype == EV_ABS) =
      axisWrites st ax code v := by
  unfold axisWrites
  split_ifs <;> simp [EV_ABS]

/-- Every write of `axisWrites` carries the axis event category. -/
theorem axisWrites_etype (st : State) (ax : AX) (code : String) (v : ℚ) :
    ∀ w ∈ axisWrites st ax code v, w.etype = 3 := by
  unfold axisWrites
  split_ifs <;> simp [EV_ABS]

/-- C1 counterexample: with the vertical touch axis mapped by the
identity and a stored aspect of two, a raw value of ten is written as
ten (and mirrored as ten), not as the aspect-multiplied twenty the claim
requires for the vertical axis. -/
theorem C1_touchpad_y_cex :
    (consume stY 0 [Event.axis "touchpad_y" 10]).writes =
      [⟨EV_ABS, 1, 10⟩, ⟨EV_ABS, ABS_MT_POSITION_Y, 10⟩] ∧ (10 : Int) ≠ 2 * 10 :=
  ⟨by with_unfolding_all rfl, by decide⟩

/-- C1 (amended): for every mapped axis event consumed on an open
device, the written value is `clamp(int(scale*raw+offset), bounds)`
(with `int` truncating toward zero, clamping only when bounds are
present), where the stored aspect ratio multiplies the scaled value
only for the horizontal touch axis `touchpad_x`, after scale and offset
and before truncation and clamping; for `touchpad_x` and `touchpad_y`
the same final value is mirrored onto the corresponding synthetic
multi-touch position axis. -/
theorem C1_axis_transform_amended (st : State) (wc : Int) (code : String)
    (ax : AX) (v : ℚ) (hd : st.dev.isSome = true)
    (hmap : st.axis_map code = some ax) :
    (consume st wc [Event.axis code v]).writes.filter
        (fun w => w.etype == EV_ABS) = axisWrites st ax code v := by
  obtain ⟨d, hdev⟩ := Option.isSome_iff_exists.mp hd
  have hrun : runLoop st [Event.axis code v] =
      ⟨[("axis", code)], 0, st.touchpad_aspect, st.touch_id,
        axisWrites st ax code v⟩ := by
    show step st ⟨[], 0, st.touchpad_aspect, st.touch_id, []⟩
        (Event.axis code v) = _
    unfold step
    rw [if_neg (List.not_mem_nil _)]
    simp only [stepRaw, hmap]
    unfold axisWrites axisTransform
    split_ifs <;> simp
  unfold consume
  rw [hdev]
  simp only [hrun]
  cases ho : st.output_timestamps with
  | false => simp [axisWrites_filter]
  | true =>
    simp [List.filter_append, axisWrites_filter, EV_MSC, EV_ABS]
    exact axisWrites_etype st ax code v

/-- C1 witness: scale three halves, offset five, bounds minus seven to
twenty, aspect two, raw value thirteen halves: the transform yields
twenty-nine and a half before truncation, twenty-nine after, clamped to
twenty, mirrored onto the multi-touch horizontal axis. -/
theorem C1_axis_transform_witness :
    stX.axis_map "touchpad_x" = some ⟨7, 3 / 2, 5, some (-7, 20)⟩ ∧
      (consume stX 0 [Event.axis "touchpad_x" (13 / 2)]).writes.filter
          (fun w => w.etype == EV_ABS) =
        [⟨EV_ABS, 7, 20⟩, ⟨EV_ABS, ABS_MT_POSITION_X, 20⟩] :=
  ⟨rfl,
    (C1_axis_transform_amended stX 0 "touchpad_x" ⟨7, 3 / 2, 5, some (-7, 20)⟩
        (13 / 2) rfl rfl).trans (by with_unfolding_all decide)⟩

/-! ### C2: touch tracking ids -/

/-- C2 counterexample: starting from a fresh counter, a touch-down, a
lift and a second touch-down (one per call, so none is deduplicated)
make the second down write tracking id three, because the lift also
advanced the counter; the claimed sequence `1,2,...` requires two. -/
theorem C2_tracking_id_cex :
    (consume (consume (consume stT 0 [Event.button "touchpad_touch" true]).state 0
          [Event.button "touchpad_touch" false]).state 0
        [Event.button "touchpad_touch" true]).writes =
      [⟨EV_ABS, ABS_MT_TRACKING_ID, 3⟩, ⟨EV_KEY, BTN_TOOL_FINGER, 1⟩,
       ⟨EV_KEY, 272, 1⟩] ∧
    (3 : Int) ≠ 2 :=
  ⟨by with_unfolding_all rfl, by decide⟩

/-- C2 (amended): every processed `touchpad_touch` event on an open
device writes the current tracking id on touch-down and minus one on
lift, plus the tool-presence flag and the mapped button value, and in
both cases advances the counter by one, wrapping back to one above
five hundred; touch-down ids therefore follow the counter, forming
`1,2,...,500,1,...` only when no lift is processed in between. -/
theorem C2_tracking_id_amended (st : State) (wc : Int) (b : Bool) (bid : Nat)
    (hd : st.dev.isSome = true)
    (hmap : st.btn_map "touchpad_touch" = some bid) :
    (consume st wc [Event.button "touchpad_touch" b]).writes.filter
        (fun w => !(w.etype == EV_MSC)) =
      [⟨EV_ABS, ABS_MT_TRACKING_ID, if b then st.touch_id else -1⟩,
       ⟨EV_KEY, BTN_TOOL_FINGER, if b then 1 else 0⟩,
       ⟨EV_KEY, bid, if b then 1 else 0⟩] ∧
    (consume st wc [Event.button "touchpad_touch" b]).state.touch_id =
      (if st.touch_id + 1 > 500 then 1 else st.touch_id + 1) := by
  obtain ⟨d, hdev⟩ := Option.isSome_iff_exists.mp hd
  have hrun : runLoop st [Event.button "touchpad_touch" b] =
      ⟨[("button", "touchpad_touch")], 0, st.touchpad_aspect,
        (if st.touch_id + 1 > 500 then 1 else st.touch_id + 1),
        [⟨EV_ABS, ABS_MT_TRACKING_ID, if b then st.touch_id else -1⟩,
         ⟨EV_KEY, BTN_TOOL_FINGER, if b then 1 else 0⟩,
         ⟨EV_KEY, bid, if b then 1 else 0⟩]⟩ := by
    show step st ⟨[], 0, st.touchpad_aspect, st.touch_id, []⟩
        (Event.button "touchpad_touch" b) = _
    unfold step
    rw [if_neg (List.not_mem_nil _)]
    simp [stepRaw, hmap]
  unfold consume
  rw [hdev]
  simp only [hrun]
  cases ho : st.output_timestamps with
  | false =>
    constructor
    · simp [EV_MSC, EV_ABS, EV_KEY]
    · simp
  | true =>
    constructor
    · simp [List.filter_append, EV_MSC, EV_ABS, EV_KEY]
    · simp

/-- C2 witness: with the counter at five hundred, a touch-down writes
tracking id five hundred and the counter wraps to one. -/
theorem C2_tracking_id_witness :
    (consume { stT with touch_id := 500 } 0
          [Event.button "touchpad_touch" true]).writes.filter
        (fun w => !(w.etype == EV_MSC)) =
      [⟨EV_ABS, ABS_MT_TRACKING_ID, 500⟩, ⟨EV_KEY, BTN_TOOL_FINGER, 1⟩,
       ⟨EV_KEY, 272, 1⟩] ∧
    (consume { stT with touch_id := 500 } 0
        [Event.button "touchpad_touch" true]).state.touch_id = 1 := by
  have h := C2_tracking_id_amended { stT with touch_id := 500 } 0 true 272 rfl rfl
  exact ⟨h.1.trans (by decide), h.2.trans (by decide)⟩

/-! ### C3: synchronization condition -/

/-- C3 counterexample: with sensor-timestamp output enabled, wall-clock
timestamps enabled and one mapped axis write, no sensor timestamp is
written (the only timestamp write is the wall-clock one), yet a
synchronization event is emitted, because the wall-clock write set the
`ts` local the sync condition tests. -/
theorem C3_sync_condition_cex :
    (consume stS 5000000 [Event.axis "x1" 3]).writes =
      [⟨EV_ABS, 0, 3⟩, ⟨EV_MSC, MSC_TIMESTAMP, 5000⟩] ∧
    (consume stS 5000000 [Event.axis "x1" 3]).synced = true :=
  ⟨by with_unfolding_all rfl, by with_unfolding_all rfl⟩

/-- C3 (amended): on an open device a synchronization event is emitted
iff at least one write occurred and (sensor-timestamp output is falsy,
or the final value of the `ts` local is nonzero), where that final
value is the wall-clock microsecond timestamp whenever `output_timestamps`
is enabled and something was written, and otherwise the last sensor
timestamp value written by the loop (zero if none was, or if the one
written was itself zero); the wall-clock path is therefore not
independent of the condition. -/
theorem C3_sync_condition_amended (st : State) (wc : Int) (evs : List Event)
    (hd : st.dev.isSome = true) :
    (consume st wc evs).synced =
      (!(consume st wc evs).writes.isEmpty &&
        (!st.output_imu_timestamps.truthy ||
          !((if st.output_timestamps then wcMicro wc
             else (runLoop st evs).ts) == 0))) := by
  obtain ⟨d, hdev⟩ := Option.isSome_iff_exists.mp hd
  have hempt := runLoop_empt st evs
  unfold consume
  rw [hdev]
  cases he : (runLoop st evs).wroteKeys.isEmpty with
  | true =>
    rw [he] at hempt
    cases ho : st.output_timestamps <;> simp [he, ho, ← hempt]
  | false =>
    rw [he] at hempt
    cases ho : st.output_timestamps with
    | false => simp [he, ho, ← hempt]
    | true => simp [he, ho, isEmpty_append_eq]

/-- C3 witness: instantiation at a sensor-timestamp scenario. -/
theorem C3_sync_condition_witness :
    (consume stG 0 [Event.axis "gyro_ts" 1500000]).synced =
      (!(consume stG 0 [Event.axis "gyro_ts" 1500000]).writes.isEmpty &&
        (!stG.output_imu_timestamps.truthy ||
          !((if stG.output_timestamps then wcMicro 0
             else (runLoop stG [Event.axis "gyro_ts" 1500000]).ts) == 0))) :=
  C3_sync_condition_amended stG 0 [Event.axis "gyro_ts" 1500000] rfl

/-! ### C4: in-batch deduplication -/

/-- C4 counterexample: two events sharing an unmapped `(kind, code)`
produce zero device writes, not the exactly one write the claim
demands for every same-key pair. -/
theorem C4_dedup_cex :
    (consume baseState 0 [Event.axis "foo" 1, Event.axis "foo" 2]).writes.length = 0 ∧
    (0 : Nat) ≠ 1 :=
  ⟨by with_unfolding_all rfl, by decide⟩

/-- C4 (amended): within one `consume` batch, an event of a
non-configuration kind that has a later event with the same
`(kind, code)` is dropped entirely: the call behaves exactly as if the
earlier duplicate were absent, so all device writes for that key come
from the logically-latest event (exactly one write for a plain mapped
axis or button, none for an unmapped code); configuration events are
not deduplicated. -/
theorem C4_dedup_amended (st : State) (wc : Int) (pre mid post : List Event)
    (e₁ e₂ : Event) (hk : e₁.key = e₂.key)
    (hc : e₁.kindStr ≠ "configuration") :
    consume st wc (pre ++ e₁ :: (mid ++ e₂ :: post)) =
      consume st wc (pre ++ (mid ++ e₂ :: post)) := by
  have hrun : runLoop st (pre ++ e₁ :: (mid ++ e₂ :: post)) =
      runLoop st (pre ++ (mid ++ e₂ :: post)) := by
    rw [runLoop_eq_foldSteps, runLoop_eq_foldSteps]
    unfold foldSteps
    rw [List.foldr_append, List.foldr_append]
    have hdrop := foldSteps_dedup st ⟨[], 0, st.touchpad_aspect, st.touch_id, []⟩
      e₁ (mid ++ e₂ :: post) e₂ (by simp) hk hc
    unfold foldSteps at hdrop
    rw [hdrop]
  unfold consume
  cases hdev : st.dev with
  | none => rfl
  | some d => simp only [hrun]

/-- C4 witness: a stale button value followed by the latest one in the
same batch is consumed exactly like the batch without the stale value. -/
theorem C4_dedup_witness :
    consume stB 0
        ([] ++ Event.button "a" false :: ([] ++ Event.button "a" true :: [])) =
      consume stB 0 ([] ++ ([] ++ Event.button "a" true :: [])) :=
  C4_dedup_amended stB 0 [] [] [] (Event.button "a" false)
    (Event.button "a" true) rfl (by decide)

/-! ### C5: stale-handle operations -/

/-- C5 counterexample: on a freshly constructed instance (no `open`
ever called, commands not ignored) `produce` raises `AttributeError`
because the `fd` attribute was never assigned, instead of returning the
empty event list as claimed. -/
theorem C5_stale_handle_cex :
    produce (initState emptyAx emptyBtn (.bool false) false false none) [1] [] =
      .error .attributeError := rfl

/-- C5 (amended): `consume` with no open device is a silent no-op, and
`produce` returns the empty event list when commands are ignored, or
when the `fd` attribute is assigned and the descriptor is falsy, absent
from the ready set, or the device is closed; but on an instance whose
`fd` attribute was never assigned (no `open` ever ran) and whose
commands are not ignored, `produce` raises `AttributeError`. -/
theorem C5_stale_handle_amended :
    (∀ (st : State) (wc : Int) (evs : List Event), st.dev = none →
        consume st wc evs = ⟨st, [], false⟩) ∧
    (∀ (st : State) (fds : List Int) (ins : List InEv),
        st.ignore_cmds = true → produce st fds ins = .ok (st, [], 0)) ∧
    (∀ (st : State) (fds : List Int) (ins : List InEv) (fdo : Option Int),
        st.ignore_cmds = false → st.fd = .val fdo →
        (fdTruthy fdo = false ∨ fdMem fdo fds = false ∨ st.dev = none) →
        produce st fds ins = .ok (st, [], 0)) ∧
    (∀ (st : State) (fds : List Int) (ins : List InEv),
        st.ignore_cmds = false → st.fd = .unset →
        produce st fds ins = .error .attributeError) := by
  refine ⟨?_, ?_, ?_, ?_⟩
  · intro st wc evs hdev
    unfold consume
    rw [hdev]
  · intro st fds ins hig
    simp [produce, hig]
  · intro st fds ins fdo hig hfd hcond
    unfold produce
    rw [hig, hfd]
    rcases hcond with h | h | h <;> simp [produceFd, h]
  · intro st fds ins hig hfd
    unfold produce
    rw [hig, hfd]
    rfl

/-- C5 witness: the four cases at concrete states. -/
theorem C5_stale_handle_witness :
    consume { baseState with dev := none } 0 [Event.button "a" true] =
      ⟨{ baseState with dev := none }, [], false⟩ ∧
    produce { baseState with ignore_cmds := true } [3] [] =
      .ok ({ baseState with ignore_cmds := true }, [], 0) ∧
    produce { baseState with fd := .val none } [3] [] =
      .ok ({ baseState with fd := .val none }, [], 0) ∧
    produce (initState emptyAx emptyBtn (.bool false) false false none) [2] [] =
      .error .attributeError :=
  ⟨C5_stale_handle_amended.1 _ 0 _ rfl,
   C5_stale_handle_amended.2.1 _ _ _ rfl,
   C5_stale_handle_amended.2.2.1 _ _ _ none rfl rfl (Or.inl rfl),
   C5_stale_handle_amended.2.2.2 _ _ _ rfl rfl⟩

/-! ### C6: pending rumble effect lifecycle -/

/-- Open device with a stored pending rumble effect. -/
def stR : State := { baseState with rumble := some ⟨"main", 1, 1 / 2⟩ }

/-- C6 counterexample: `close` destroys the device handle but leaves
the stored pending rumble effect in place, not cleared as claimed. -/
theorem C6_pending_rumble_cex :
    (close stR).1.rumble = some ⟨"main", 1, 1 / 2⟩ ∧
    some (⟨"main", 1, 1 / 2⟩ : RumbleEv) ≠ none :=
  ⟨rfl, by simp⟩

/-- C6 (amended): the stored pending rumble effect changes only via
rumble-style force-feedback uploads in `produce` (each new one silently
replacing the previous), is read but never consumed by activation, and
is preserved untouched by `consume`, `open` and `close` alike; in
particular `close` does not clear it. -/
theorem C6_pending_rumble_amended :
    (∀ st : State, (close st).1.rumble = st.rumble) ∧
    (∀ (st : State) (wc : Int) (evs : List Event),
        (consume st wc evs).state.rumble = st.rumble) ∧
    (∀ (st : State) (primary : Option String → Except String DevHandle)
        (fallback : Except String DevHandle),
        (openDev st primary fallback).1.rumble = st.rumble) ∧
    (∀ (st : State) (fds : List Int) (ins : List InEv) (st2 : State)
        (out : List RumbleEv) (w : Nat),
        produce st fds ins = .ok (st2, out, w) →
        st2.rumble = st.rumble ∨
          st2.rumble = uploadsApplied st.rumble ins) := by
  refine ⟨?_, ?_, ?_, ?_⟩
  · intro st
    rfl
  · intro st wc evs
    unfold consume
    cases st.dev <;> rfl
  · intro st primary fallback
    unfold openDev
    cases primary st.uniq with
    | ok d => rfl
    | error e => cases fallback <;> rfl
  · intro st fds ins st2 out w h
    unfold produce at h
    split at h
    · simp only [Except.ok.injEq, Prod.mk.injEq] at h
      exact Or.inl (by rw [← h.1])
    · cases hfd : st.fd with
      | unset =>
        rw [hfd] at h
        simp [produceFd] at h
      | val fdo =>
        rw [hfd] at h
        simp only [produceFd] at h
        split at h
        · simp only [Except.ok.injEq, Prod.mk.injEq] at h
          exact Or.inl (by rw [← h.1])
        · simp only [Except.ok.injEq, Prod.mk.injEq] at h
          refine Or.inr ?_
          rw [← h.1]
          exact foldl_produce_rumble ins _

/-- C6 witness: a rumble upload replaces the (absent) pending effect
with the normalized magnitudes of the uploaded effect. -/
theorem C6_pending_rumble_witness :
    ({ baseState with rumble := some ⟨"main", 1, 0⟩ } : State).rumble =
        baseState.rumble ∨
    ({ baseState with rumble := some ⟨"main", 1, 0⟩ } : State).rumble =
        uploadsApplied baseState.rumble [⟨257, 1, 5, some ⟨80, 65535, 0⟩⟩] :=
  C6_pending_rumble_amended.2.2.2 baseState [3] [⟨257, 1, 5, some ⟨80, 65535, 0⟩⟩]
    _ [] 0 (by with_unfolding_all rfl)

/-! ### C7: sensor timestamps -/

/-- C7: an unmapped axis event matching the sensor-timestamp condition
writes exactly one timestamp event whose value is the raw nanosecond
value floor-divided by one thousand and wrapped to thirty-two bits, and
when that value is nonzero the call emits a synchronization event
(stated with the wall-clock timestamp output disabled, which leaves the
sensor write as the only write of the call). -/
theorem C7_sensor_timestamp (st : State) (wc : Int) (code : String) (v : ℚ)
    (hd : st.dev.isSome = true) (ho : st.output_timestamps = false)
    (hmap : st.axis_map code = none) (him : imuMatch st code = true) :
    (consume st wc [Event.axis code v]).writes =
      [⟨EV_MSC, MSC_TIMESTAMP, nsToUs v⟩] ∧
    (nsToUs v ≠ 0 → (consume st wc [Event.axis code v]).synced = true) := by
  obtain ⟨d, hdev⟩ := Option.isSome_iff_exists.mp hd
  have hrun : runLoop st [Event.axis code v] =
      ⟨[("axis", code)], nsToUs v, st.touchpad_aspect, st.touch_id,
        [⟨EV_MSC, MSC_TIMESTAMP, nsToUs v⟩]⟩ := by
    show step st ⟨[], 0, st.touchpad_aspect, st.touch_id, []⟩
        (Event.axis code v) = _
    unfold step
    rw [if_neg (List.not_mem_nil _)]
    simp [stepRaw, hmap, him]
  unfold consume
  rw [hdev]
  simp only [hrun]
  constructor
  · simp [ho]
  · intro hz
    simp [ho, hz]

set_option maxRecDepth 10000 in
/-- C7 witness: scenario B of the specification, a gyroscope timestamp
of one and a half million nanoseconds is written as fifteen hundred
microseconds and a synchronization event is emitted. -/
theorem C7_sensor_timestamp_witness :
    stG.axis_map "gyro_ts" = none ∧
    (consume stG 0 [Event.axis "gyro_ts" 1500000]).writes =
      [⟨EV_MSC, MSC_TIMESTAMP, 1500⟩] ∧
    (consume stG 0 [Event.axis "gyro_ts" 1500000]).synced = true := by
  have h := C7_sensor_timestamp stG 0 "gyro_ts" 1500000 rfl rfl rfl (by decide)
  exact ⟨rfl, h.1.trans (by with_unfolding_all decide),
    h.2 (by with_unfolding_all decide)⟩

/-! ### C8: force-feedback activation -/

/-- C8: draining a nonzero-valued force-feedback event emits the
pending rumble effect when one exists, and otherwise logs exactly one
warning and emits nothing; neither case raises, and the pending effect
itself is not consumed. -/
theorem C8_activation (st : State) (fds : List Int) (f : Int) (c : Nat)
    (vv : Int) (pl : Option FFEffect) (hig : st.ignore_cmds = false)
    (hfd : st.fd = .val (some f)) (hf : f ≠ 0) (hmem : f ∈ fds)
    (hdev : st.dev.isSome = true) (hv : vv ≠ 0) :
    produce st fds [⟨EV_FF, c, vv, pl⟩] =
      .ok (st, st.rumble.toList, if st.rumble.isSome then 0 else 1) := by
  obtain ⟨d, hdev'⟩ := Option.isSome_iff_exists.mp hdev
  unfold produce
  rw [hig, hfd]
  rw [if_neg (by simp)]
  have hcond : (!fdTruthy (some f) || !fdMem (some f) fds || st.dev.isNone)
      = false := by
    simp [fdTruthy, fdMem, hf, hmem, hdev']
  have hstep : produceStep ⟨st.rumble, [], 0, 0⟩ ⟨EV_FF, c, vv, pl⟩ =
      ⟨st.rumble, st.rumble.toList, if st.rumble.isSome then 0 else 1, 0⟩ := by
    unfold produceStep
    cases hr : st.rumble <;>
      simp [EV_MSC, MSC_TIMESTAMP, EV_UINPUT, EV_FF, hv]
  simp only [produceFd, List.foldl_cons, List.foldl_nil]
  rw [if_neg (by rw [hcond]; simp), hstep]

/-- C8 witness: an activation drained with no pending effect emits zero
events and logs one warning, without raising. -/
theorem C8_activation_witness :
    produce baseState [3] [⟨EV_FF, 0, 1, none⟩] = .ok (baseState, [], 1) :=
  (C8_activation baseState [3] 3 0 1 none rfl rfl (by decide) (by decide) rfl
    (by decide)).trans rfl

/-! ### C9: two-tier device construction -/

/-- The state a successful construction leaves behind: handle and
descriptor stored, touch state reset to its defaults. -/
def stOpened (st : State) (d : DevHandle) : State :=
  { st with dev := some d, fd := .val (some d.fd),
            touchpad_aspect := 1, touch_id := 1 }

/-- C9: `open` first attempts the primary construction, which alone
receives the stored unique id; if it succeeds the fallback is never
consulted and no error is logged; if it fails, one error is logged and
the default construction (taking no unique id) is attempted, its
success making `open` succeed; `open` propagates a construction error
to its caller only when both constructions fail. -/
theorem C9_open_fallback :
    (∀ (st : State) (d : DevHandle) (fb : Except String DevHandle),
        openDev st (fun _ => .ok d) fb =
          (stOpened st d, .ok (if st.ignore_cmds then [] else [d.fd]), 0)) ∧
    (∀ (st : State) (e : String) (d : DevHandle),
        openDev st (fun _ => .error e) (.ok d) =
          (stOpened st d, .ok (if st.ignore_cmds then [] else [d.fd]), 1)) ∧
    (∀ (st : State) (e e2 : String),
        openDev st (fun _ => .error e) (.error e2) = (st, .error e2, 1)) :=
  ⟨fun _ _ _ => rfl, fun _ _ _ => rfl, fun _ _ _ => rfl⟩

/-! ### C10: earliest aspect configuration wins -/

/-- C10: when a batch holds several `touchpad_aspect_ratio`
configuration events, the stored aspect after the call is the value of
the earliest one: configuration events never enter the deduplication
dict, and the reverse iteration applies the earliest value last. -/
theorem C10_aspect_earliest (st : State) (wc : Int) (evs : List Event)
    (v : ℚ) (rest : List ℚ) (hd : st.dev.isSome = true)
    (hvals : aspectValues evs = v :: rest) (_hmulti : rest ≠ []) :
    (consume st wc evs).state.touchpad_aspect = v := by
  obtain ⟨d, hdev⟩ := Option.isSome_iff_exists.mp hd
  have ha := runLoop_aspect st evs
  rw [hvals] at ha
  unfold consume
  rw [hdev]
  show (runLoop st evs).aspect = v
  exact ha

/-- C10 witness: two aspect configuration events in one batch leave the
earliest value stored. -/
theorem C10_aspect_earliest_witness :
    (consume baseState 0 [Event.config "touchpad_aspect_ratio" 2,
        Event.config "touchpad_aspect_ratio" 3]).state.touchpad_aspect = 2 :=
  C10_aspect_earliest baseState 0 _ 2 [3] rfl rfl (by simp)
